import Mathlib

/-!
Verification of the lastbottlewines scoring-and-notification pipeline.

Shallow embedding of the Python sources:
  src/lastbottlewines/scorer.py        (score_wine, generate_wine_scoring_prompt,
                                        format_type_specific_ranges)
  src/lastbottlewines/config.py        (in_price_range)
  src/lastbottlewines/wine_database.py (WineDatabase: add_wine, add_user_score,
                                        get_wine, is_duplicate_wine)
  src/lastbottlewines/notifier.py      (notify_user)
  src/lastbottlewines/last_bottle.py   (main orchestration loop)

Modelling conventions:
* Python strings are `List Char`; `pyStrip` models `str.strip` and
  `pySplitlines` models `str.splitlines` (newline = LF; the claims only
  involve LF-separated ASCII text).
* Python `float` prices are modelled as `ℚ`: the code only compares prices,
  never does arithmetic on them, and comparison of floats is exact.
* Exceptions are explicit: a function that can raise returns `Except`;
  an exception that escapes a code region is a distinguished constructor
  (`ParseOutcome.raised`, `RunResult.aborted`).
* SQLite tables are lists of rows; `INSERT OR REPLACE` on the
  `UNIQUE(user_id, wine_id, timestamp)` key deletes conflicting rows and
  appends the new one; `AUTOINCREMENT` ids come from a counter.
-/

namespace LastBottle

/-- Python strings, modelled as lists of characters. -/
abbrev PyStr := List Char

/-- Python `str.strip()`: drop leading and trailing whitespace. -/
def pyStrip (s : PyStr) : PyStr :=
  ((s.dropWhile Char.isWhitespace).reverse.dropWhile Char.isWhitespace).reverse

/-- Split a character list at every LF. Helper for `pySplitlines`. -/
def splitOnNewline : PyStr → List PyStr
  | [] => [[]]
  | c :: rest =>
    match splitOnNewline rest with
    | [] => [[]]
    | line :: ls => if c = '\n' then [] :: line :: ls else (c :: line) :: ls

/-- Python `str.splitlines()` restricted to LF line breaks: the empty string
gives `[]`; otherwise split at every newline.  (The code only applies this
to already-stripped text, which never ends in a newline, so the two agree
on every input that occurs.) -/
def pySplitlines (s : PyStr) : List PyStr :=
  if s = [] then [] else splitOnNewline s

/-- Python regex word character (`\w`), ASCII fragment: alphanumeric or
underscore. -/
def isWordChar (c : Char) : Bool := c.isAlphanum || c = '_'

/-- Numeric value of a run of decimal digits (`int(...)` on the match). -/
def digitsToNat (l : PyStr) : Nat := l.foldl (fun a c => 10 * a + (c.toNat - 48)) 0

/-- Does a `\b` word boundary hold before a word character, given the
previous character (`none` at the start of the line)? -/
def boundaryOk (prev : Option Char) : Bool :=
  match prev with
  | none => true
  | some p => !(isWordChar p)

/-- Does a word boundary follow the maximal digit run starting the line
(that is, is the run followed by the end of the line or a non-word
character)? -/
def afterRunOk (l : PyStr) : Bool :=
  match (l.drop (l.takeWhile Char.isDigit).length).head? with
  | none => true
  | some a => !(isWordChar a)

/-- `re.search(r"\b(\d{1,3})\b", line)`: scan left to right; at each
position a match exists exactly when a word boundary precedes it, the
maximal digit run starting there has length 1 to 3, and a word boundary
follows the run.  (With backtracking, a shorter prefix of a longer digit
run never matches, because the character after it is a digit and hence a
word character.)  Returns the numeric value of the first match. -/
def reSearchDigits (prev : Option Char) : PyStr → Option Nat
  | [] => none
  | c :: rest =>
    if c.isDigit && boundaryOk prev
        && decide (((c :: rest).takeWhile Char.isDigit).length ≤ 3)
        && afterRunOk (c :: rest) then
      some (digitsToNat ((c :: rest).takeWhile Char.isDigit))
    else reSearchDigits (some c) rest

/-- Outcome of the score-parsing region of `score_wine`:
`raised` = a Python exception escaped (e.g. `IndexError` from
`splitlines()[-1]` on empty text, or the LLM call itself raising);
`noScore` = the function returned `None`;
`score n` = the function returned the integer `n`. -/
inductive ParseOutcome where
  | raised
  | noScore
  | score (n : Nat)
deriving DecidableEq, Repr

/-- The per-line part of `score_wine`: regex search on the (stripped) last
line, then the `0 <= score <= 100` range check. -/
def parseLine (l : PyStr) : ParseOutcome :=
  match reSearchDigits none l with
  | some n => if n ≤ 100 then .score n else .noScore
  | none => .noScore

/-- The parsing tail of `score_wine` (scorer.py lines 26-35):
`response_text = response.text.strip()`;
`last_line = response_text.splitlines()[-1].strip()`;
regex search and range check.  Indexing `[-1]` on an empty list raises
`IndexError`, modelled as `.raised`. -/
def score_wine_parse (t : PyStr) : ParseOutcome :=
  let stripped := pyStrip t
  match (pySplitlines stripped).getLast? with
  | none => .raised
  | some last => parseLine (pyStrip last)

/-- The last line of the stripped text, stripped again — the line the
parser actually inspects (`None` when the text is empty or all
whitespace). -/
def lastStrippedLine (t : PyStr) : Option PyStr :=
  ((pySplitlines (pyStrip t)).getLast?).map pyStrip

/-! ### User configuration (config.py, and the keys main/scorer/notifier read) -/

/-- A YAML value under the `notify_threshold` key: `main` only acts on it
when `isinstance(notify_threshold, int)` holds, so the model records
whether it is an integer (and which) or something else. -/
inductive YamlThreshold where
  | intVal (n : Int)
  | nonInt
deriving DecidableEq, Repr

/-- The user configuration dictionary, with the keys the pipeline reads.
A missing key is `none` / `[]`, matching each `config.get(key, default)`
in the source.  Prices are `ℚ` (see the header note on floats). -/
structure UserConfig where
  profile : PyStr
  types : List PyStr
  price_range : Option ℚ × Option ℚ
  type_specific_price_ranges : List (PyStr × (Option ℚ × Option ℚ))
  always_notify_for : List PyStr
  never_notify_for : List PyStr
  notify_threshold : Option YamlThreshold
  email : Option PyStr
  contact_email : Option PyStr
deriving DecidableEq, Repr

/-- config.py `in_price_range`: below a configured min or above a
configured max excludes; a `None` bound imposes no constraint. -/
def in_price_range (price : ℚ) (config : UserConfig) : Bool :=
  if config.price_range.1.any (fun lo => decide (price < lo)) then false
  else if config.price_range.2.any (fun hi => decide (hi < price)) then false
  else true

/-! ### Prompt builder (scorer.py) -/

/-- The value Python computes for `price_range[i] if price_range[i] else
"Any"`: the *falsiness* test maps both a missing bound and a bound equal
to 0 to the literal `"Any"`. -/
inductive BoundRender where
  | anyB
  | val (v : ℚ)
deriving DecidableEq, Repr

/-- `b if b else "Any"` on an optional numeric bound. -/
def renderBound : Option ℚ → BoundRender
  | none => .anyB
  | some v => if v = 0 then .anyB else .val v

/-- Text of a rendered bound as it is interpolated into the prompt.
Numeric rendering is abstracted by `ℚ`'s canonical string. -/
def boundText : BoundRender → PyStr
  | .anyB => "Any".toList
  | .val v => (toString v).toList

/-- Python `sep.join(items)`. -/
def joinSep (sep : PyStr) : List PyStr → PyStr
  | [] => []
  | [x] => x
  | x :: y :: xs => x ++ sep ++ joinSep sep (y :: xs)

/-- One line of `format_type_specific_ranges`. -/
def formatRangeLine (p : PyStr × (Option ℚ × Option ℚ)) : PyStr :=
  "  - ".toList ++ p.1 ++ ": $".toList ++ boundText (renderBound p.2.1)
    ++ " - $".toList ++ boundText (renderBound p.2.2)

/-- scorer.py `format_type_specific_ranges`: one line per wine type,
joined by newlines, each bound subject to the same falsiness test. -/
def format_type_specific_ranges (type_ranges : List (PyStr × (Option ℚ × Option ℚ))) : PyStr :=
  joinSep "\n".toList (type_ranges.map formatRangeLine)

/-- scorer.py `generate_wine_scoring_prompt`: the fixed template with the
profile, preferred types, price bounds, type-specific ranges, notify
lists and the wine name interpolated. -/
def generate_wine_scoring_prompt (wine_name : PyStr) (config : UserConfig) : PyStr :=
  let preferred_types := joinSep ", ".toList config.types
  let profile := pyStrip config.profile
  ("You are a wine expert evaluating a wine based on user preferences.\n"
    ++ "Think carefully and critically about how well this wine matches the user\x27s\n"
    ++ "profile and preferences. Consider the grape variety, region, vintage,\n"
    ++ "production style, and how these align with what the user is looking for.\n\n"
    ++ "## User Wine Preferences:\n\n").toList
  ++ profile
  ++ "\n\n## Preferred Wine Types:\n".toList
  ++ preferred_types
  ++ "\n\n## Price Range Preference:\n$".toList
  ++ boundText (renderBound config.price_range.1)
  ++ " - $".toList
  ++ boundText (renderBound config.price_range.2)
  ++ "\n\n## Type-Specific Price Ranges:\n".toList
  ++ (if config.type_specific_price_ranges = [] then "None specified".toList
      else format_type_specific_ranges config.type_specific_price_ranges)
  ++ "\n\n## Always notify (if the wine contains any of these names, score 100):\n".toList
  ++ (if config.always_notify_for = [] then "None specified".toList
      else joinSep ", ".toList config.always_notify_for)
  ++ "\n\n## Always avoid (if the wine matches any of these categories, score 0):\n".toList
  ++ (if config.never_notify_for = [] then "None specified".toList
      else joinSep ", ".toList config.never_notify_for)
  ++ "\n\n---\n\n## Wine to Score:\n".toList
  ++ wine_name
  ++ ("\n\n## Scoring guidelines:\n"
    ++ "- 90-100: Near-perfect match — wine type, style, region, and price all align\n"
    ++ "- 80-89: Strong match — most preferences met, minor gaps\n"
    ++ "- 70-79: Good match, worth considering\n"
    ++ "- 60-69: Moderate — some preferences met, notable gaps\n"
    ++ "- 50-59: Weak — few preferences met\n"
    ++ "- 0-49: Poor match for preferences\n\n"
    ++ "## Instructions:\n"
    ++ "1. Reason step by step about how well this wine matches the user\x27s preferences.\n"
    ++ "2. Produce 5 independent scores (do not output them).\n"
    ++ "3. Output ONLY the median of those 5 scores as a single integer. No other text.").toList

/-! ### Persistence layer (wine_database.py) -/

/-- A row of the `wines` table (`id PK AUTOINCREMENT`, `timestamp UNIQUE`,
`wine_name`, `price`).  Timestamps are abstract instants, ordered as the
stored datetimes compare. -/
structure WineRow where
  id : Nat
  timestamp : Int
  wine_name : PyStr
  price : ℚ
deriving DecidableEq, Repr

/-- A row of the `user_scores` table. -/
structure ScoreRow where
  id : Nat
  user_id : PyStr
  wine_id : Nat
  wine_name : PyStr
  score : Int
  timestamp : Int
deriving DecidableEq, Repr

/-- Database state: the two tables plus the next AUTOINCREMENT id of each. -/
structure DB where
  wines : List WineRow
  scores : List ScoreRow
  nextWineId : Nat
  nextScoreId : Nat
deriving DecidableEq, Repr

/-- Exceptions the database methods can raise: `integrityError` is
SQLite refusing a UNIQUE violation, `valueError` is the Python
`raise ValueError` in `add_user_score`. -/
inductive DbError where
  | integrityError
  | valueError
deriving DecidableEq, Repr

/-- `add_wine`: `INSERT INTO wines (timestamp, wine_name, price)`.
The UNIQUE constraint on `timestamp` makes a second insert at the same
instant raise; otherwise the row is appended and `cursor.lastrowid`
returned. -/
def add_wine (db : DB) (wine_name : PyStr) (price : ℚ) (ts : Int) :
    Except DbError (DB × Nat) :=
  if db.wines.any (fun w => decide (w.timestamp = ts)) then .error .integrityError
  else .ok ({ db with
                wines := db.wines ++ [⟨db.nextWineId, ts, wine_name, price⟩],
                nextWineId := db.nextWineId + 1 },
            db.nextWineId)

/-- `get_wine`: `SELECT * FROM wines WHERE id = ?` (at most one row, id is
the primary key). -/
def get_wine (db : DB) (wine_id : Nat) : Option WineRow :=
  db.wines.find? (fun w => decide (w.id = wine_id))

/-- Does a score row sit on the `UNIQUE(user_id, wine_id, timestamp)`
key? -/
def sameTriple (user_id : PyStr) (wine_id : Nat) (ts : Int) (r : ScoreRow) : Bool :=
  decide (r.user_id = user_id ∧ r.wine_id = wine_id ∧ r.timestamp = ts)

/-- `add_user_score`: the explicit `0 <= score <= 100` check raises
`ValueError`, then the wine is looked up (`ValueError` when absent), then
`INSERT OR REPLACE INTO user_scores` deletes any row conflicting on
`UNIQUE(user_id, wine_id, timestamp)` and appends the new row. -/
def add_user_score (db : DB) (user_id : PyStr) (wine_id : Nat) (score : Int) (ts : Int) :
    Except DbError (DB × Nat) :=
  if score < 0 ∨ 100 < score then .error .valueError
  else
    match get_wine db wine_id with
    | none => .error .valueError
    | some w =>
      .ok ({ db with
               scores := db.scores.filter (fun r => !(sameTriple user_id wine_id ts r))
                           ++ [⟨db.nextScoreId, user_id, wine_id, w.wine_name, score, ts⟩],
               nextScoreId := db.nextScoreId + 1 },
           db.nextScoreId)

/-- `is_duplicate_wine`: `SELECT 1 FROM wines WHERE wine_name = ? AND
timestamp >= datetime(now, -N days)`.  `cutoff` is the instant
`now - N days` computed by SQLite. -/
def is_duplicate_wine (db : DB) (wine_name : PyStr) (cutoff : Int) : Bool :=
  db.wines.any (fun w => decide (w.wine_name = wine_name) && decide (cutoff ≤ w.timestamp))

/-! ### Notifier (notifier.py) -/

/-- Python exceptions inside `notify_user`: the explicit
`raise ValueError` when no email is configured, and anything
`_send_email` raises. -/
inductive PyExn where
  | valueError
  | smtpError
deriving DecidableEq, Repr

/-- What `notify_user` did, as seen by its caller: an email send was
attempted and completed for an address, or the internal `except` clause
swallowed an exception and the function returned with no send. -/
inductive NotifyOutcome where
  | sent (addr : PyStr)
  | noSend
deriving DecidableEq, Repr

/-- Python falsiness of an optional string: `None` and `""` are falsy. -/
def pyFalsyStr : Option PyStr → Bool
  | none => true
  | some s => s.isEmpty

/-- `email = config.get("email") or contact.get("email")`, followed by the
`if not email` test: the truthy address the notifier will use, if any. -/
def effectiveEmail (config : UserConfig) : Option PyStr :=
  let e := if pyFalsyStr config.email then config.contact_email else config.email
  if pyFalsyStr e then none else e

/-- The body of `notify_user`'s `try` block: raise `ValueError` when no
email is configured, otherwise `_send_email` (which succeeds or raises,
decided here by the environment flag `sendOk`). -/
def notifyAttempt (config : UserConfig) (sendOk : Bool) : Except PyExn PyStr :=
  match effectiveEmail config with
  | none => .error .valueError
  | some a => if sendOk then .ok a else .error .smtpError

/-- notifier.py `notify_user`: the whole fallible region sits inside
`try: ... except Exception: logger.error(...)`, so every internal
exception is swallowed and the function returns normally.  Totality of
this definition is the embedding of "never raises to the caller". -/
def notify_user (config : UserConfig) (sendOk : Bool) : NotifyOutcome :=
  match notifyAttempt config sendOk with
  | .ok a => .sent a
  | .error _ => .noSend

/-! ### Orchestrator (last_bottle.py main) -/

/-- The external LLM call inside `score_wine`: it either raises (network
or API failure, or `response.text` being `None`) or yields response
text. -/
inductive OracleOutcome where
  | raises
  | returns (text : PyStr)
deriving DecidableEq, Repr

/-- scorer.py `score_wine` end to end: a raising call is an escaping
exception (`.raised`), otherwise the response text is parsed. -/
def score_wine (o : OracleOutcome) : ParseOutcome :=
  match o with
  | .raises => .raised
  | .returns t => score_wine_parse t

/-- One user's slot in the per-user loop: the config-file stem
(`config_path.stem`), the result of `load_user_config` (`none` = it
raised, which `main` catches), and the outcome of this user's LLM
call. -/
structure UserEvent where
  user_id : PyStr
  cfgResult : Option UserConfig
  oracle : OracleOutcome
deriving DecidableEq, Repr

/-- The inline notification decision in `main` (last_bottle.py lines
102-111): always-notify membership first, else an `isinstance(int)`
threshold comparison, else no. -/
def shouldNotify (wine_name : PyStr) (score : Nat) (config : UserConfig) : Bool :=
  if wine_name ∈ config.always_notify_for then true
  else
    match config.notify_threshold with
    | some (.intVal t) => decide (t ≤ (score : Int))
    | _ => false

/-- What one iteration of the per-user loop did. `uncaught` means a
Python exception escaped the loop body (and hence `main`): `main` only
wraps `load_user_config` and `notify_user` in `try`, nothing else. -/
structure StepEffects where
  db : DB
  promptBuilt : Bool
  scoreWritten : Bool
  notifiedUser : Bool
  uncaught : Bool
deriving DecidableEq, Repr

/-- One iteration of `main`'s per-user loop (last_bottle.py lines 79-118)
for a non-template user: caught config-load failure → skip; price filter
→ skip; prompt + `score_wine`; `None` score → logged skip; otherwise
`add_user_score`, then the notify decision and the `try`-wrapped
`notify_user` call (which never raises). -/
def userStep (db : DB) (wine_id : Nat) (wine_name : PyStr) (price : ℚ) (ts : Int)
    (u : UserEvent) : StepEffects :=
  match u.cfgResult with
  | none => ⟨db, false, false, false, false⟩
  | some config =>
    if !(in_price_range price config) then ⟨db, false, false, false, false⟩
    else
      match score_wine u.oracle with
      | .raised => ⟨db, true, false, false, true⟩
      | .noScore => ⟨db, true, false, false, false⟩
      | .score n =>
        match add_user_score db u.user_id wine_id (n : Int) ts with
        | .error _ => ⟨db, true, false, false, true⟩
        | .ok (db2, _) => ⟨db2, true, true, shouldNotify wine_name n config, false⟩

/-- Observable outcome of one `main` run.  `closed` = `db.close()` ran;
`digestSent` = `send_error_digest()` ran; `processed` = user ids whose
loop iteration ran to completion (including caught skips); `prompts` /
`notified` = ids for which a prompt was built / a notification attempt
made; `aborted` = an uncaught exception escaped `main`. -/
structure RunResult where
  db : DB
  closed : Bool
  digestSent : Bool
  processed : List PyStr
  prompts : List PyStr
  notified : List PyStr
  aborted : Bool
deriving DecidableEq, Repr

/-- The per-user loop of `main`: `template` stems are skipped before
anything runs; an uncaught exception aborts the whole run (no close, no
digest); otherwise the loop continues and on exhaustion `main` closes
the database and flushes the error digest. -/
def runUsers (wine_id : Nat) (wine_name : PyStr) (price : ℚ) (ts : Int) :
    DB → List UserEvent → RunResult
  | db, [] => ⟨db, true, true, [], [], [], false⟩
  | db, u :: rest =>
    if u.user_id = "template".toList then runUsers wine_id wine_name price ts db rest
    else if (userStep db wine_id wine_name price ts u).uncaught then
      ⟨(userStep db wine_id wine_name price ts u).db, false, false, [],
        if (userStep db wine_id wine_name price ts u).promptBuilt then [u.user_id] else [],
        [], true⟩
    else
      { runUsers wine_id wine_name price ts (userStep db wine_id wine_name price ts u).db rest with
          processed := u.user_id ::
            (runUsers wine_id wine_name price ts
              (userStep db wine_id wine_name price ts u).db rest).processed,
          prompts := (if (userStep db wine_id wine_name price ts u).promptBuilt
              then [u.user_id] else []) ++
            (runUsers wine_id wine_name price ts
              (userStep db wine_id wine_name price ts u).db rest).prompts,
          notified := (if (userStep db wine_id wine_name price ts u).notifiedUser
              then [u.user_id] else []) ++
            (runUsers wine_id wine_name price ts
              (userStep db wine_id wine_name price ts u).db rest).notified }

/-- last_bottle.py `main`: scrape (failure → log + digest + return),
duplicate-offer guard (hit → close + digest + return), `add_wine` (an
IntegrityError would escape `main`), user-configs directory check, then
the per-user loop. -/
def mainModel (scrape : Option (PyStr × ℚ)) (dirExists : Bool) (users : List UserEvent)
    (db0 : DB) (ts : Int) (cutoff : Int) : RunResult :=
  match scrape with
  | none => ⟨db0, false, true, [], [], [], false⟩
  | some (wine_name, price) =>
    if is_duplicate_wine db0 wine_name cutoff then
      ⟨db0, true, true, [], [], [], false⟩
    else
      match add_wine db0 wine_name price ts with
      | .error _ => ⟨db0, false, false, [], [], [], true⟩
      | .ok (db1, wine_id) =>
        if !dirExists then ⟨db1, true, true, [], [], [], false⟩
        else runUsers wine_id wine_name price ts db1 users

/-! ### Derived notions used by the statements -/

/-- The prompt text strictly before the general price-range bounds. -/
def promptPrefix (config : UserConfig) : PyStr :=
  ("You are a wine expert evaluating a wine based on user preferences.\n"
    ++ "Think carefully and critically about how well this wine matches the user\x27s\n"
    ++ "profile and preferences. Consider the grape variety, region, vintage,\n"
    ++ "production style, and how these align with what the user is looking for.\n\n"
    ++ "## User Wine Preferences:\n\n").toList
  ++ pyStrip config.profile
  ++ "\n\n## Preferred Wine Types:\n".toList
  ++ joinSep ", ".toList config.types
  ++ "\n\n## Price Range Preference:\n$".toList

/-- The prompt text strictly after the general price-range bounds. -/
def promptSuffix (wine_name : PyStr) (config : UserConfig) : PyStr :=
  "\n\n## Type-Specific Price Ranges:\n".toList
  ++ (if config.type_specific_price_ranges = [] then "None specified".toList
      else format_type_specific_ranges config.type_specific_price_ranges)
  ++ "\n\n## Always notify (if the wine contains any of these names, score 100):\n".toList
  ++ (if config.always_notify_for = [] then "None specified".toList
      else joinSep ", ".toList config.always_notify_for)
  ++ "\n\n## Always avoid (if the wine matches any of these categories, score 0):\n".toList
  ++ (if config.never_notify_for = [] then "None specified".toList
      else joinSep ", ".toList config.never_notify_for)
  ++ "\n\n---\n\n## Wine to Score:\n".toList
  ++ wine_name
  ++ ("\n\n## Scoring guidelines:\n"
    ++ "- 90-100: Near-perfect match — wine type, style, region, and price all align\n"
    ++ "- 80-89: Strong match — most preferences met, minor gaps\n"
    ++ "- 70-79: Good match, worth considering\n"
    ++ "- 60-69: Moderate — some preferences met, notable gaps\n"
    ++ "- 50-59: Weak — few preferences met\n"
    ++ "- 0-49: Poor match for preferences\n\n"
    ++ "## Instructions:\n"
    ++ "1. Reason step by step about how well this wine matches the user\x27s preferences.\n"
    ++ "2. Produce 5 independent scores (do not output them).\n"
    ++ "3. Output ONLY the median of those 5 scores as a single integer. No other text.").toList

/-- Arguments of one `add_user_score` call. -/
structure ScoreOp where
  user_id : PyStr
  wine_id : Nat
  score : Int
  timestamp : Int
deriving DecidableEq, Repr

/-- Run one `add_user_score` call from a caller that survives the raise
(the raised error leaves the connection's committed state unchanged). -/
def applyScoreOp (db : DB) (op : ScoreOp) : DB :=
  match add_user_score db op.user_id op.wine_id op.score op.timestamp with
  | .ok (db2, _) => db2
  | .error _ => db

/-- Run a sequence of `add_user_score` calls. -/
def applyScoreOps (db : DB) (ops : List ScoreOp) : DB := ops.foldl applyScoreOp db

/-- At most one score row per `(user_id, wine_id, timestamp)` triple. -/
def UniqueTriples (l : List ScoreRow) : Prop :=
  l.Pairwise (fun r s => ¬(r.user_id = s.user_id ∧ r.wine_id = s.wine_id ∧
    r.timestamp = s.timestamp))

/-- The non-reserved user ids of a run, in order (`template` is the
reserved stem `main` skips). -/
def nonTemplate (users : List UserEvent) : List PyStr :=
  (users.filter (fun u => !(decide (u.user_id = "template".toList)))).map (·.user_id)

/-! ### Concrete objects for witnesses and counterexamples -/

/-- A user config with every key absent. -/
def noCfg : UserConfig := ⟨[], [], (none, none), [], [], [], none, none, none⟩

/-- A config whose always-notify list holds exactly "Opus One". -/
def cfgOpus : UserConfig := { noCfg with always_notify_for := ["Opus One".toList] }

/-- The end-to-end scenario config: price range [20, 100] and
always-notify ["Opus One"]. -/
def cfgOpusRange : UserConfig :=
  { noCfg with price_range := (some 20, some 100),
               always_notify_for := ["Opus One".toList] }

/-- A config whose general minimum price bound is 0 (and no maximum). -/
def cfgZeroMin : UserConfig := { noCfg with price_range := (some 0, none) }

/-- A config with no price bounds at all. -/
def cfgNoMin : UserConfig := noCfg

/-- A user whose profile is `cfgOpusRange` and whose LLM call would
return "100". -/
def uOpus : UserEvent := ⟨"alice".toList, some cfgOpusRange, .returns "100".toList⟩

/-- A fresh empty database. -/
def dbEmpty : DB := ⟨[], [], 1, 1⟩

/-- A database holding one wine row ("W", id 1, timestamp 0). -/
def dbC3 : DB := ⟨[⟨1, 0, "W".toList, 10⟩], [], 2, 1⟩

/-- `dbC3` after `add_user_score "u" 1 50` at timestamp 0. -/
def dbC3s : DB := ⟨[⟨1, 0, "W".toList, 10⟩], [⟨1, "u".toList, 1, "W".toList, 50, 0⟩], 2, 2⟩

/-- A database that already holds an "Opus One" row at timestamp 100. -/
def dbDup : DB := ⟨[⟨1, 100, "Opus One".toList, 50⟩], [], 2, 1⟩

/-- Two users, the first of whose LLM call raises. -/
def usersC1 : List UserEvent :=
  [⟨"alice".toList, some noCfg, .raises⟩, ⟨"bob".toList, some noCfg, .returns "50".toList⟩]

/-- Two users: a successful score and a config file whose load raises. -/
def usersC1ok : List UserEvent :=
  [⟨"alice".toList, some noCfg, .returns "88".toList⟩, ⟨"bob".toList, none, .returns "90".toList⟩]

end LastBottle
namespace LastBottle

/-- The parser acts on `lastStrippedLine`. -/
theorem score_wine_parse_eq (t : PyStr) :
    score_wine_parse t =
      match lastStrippedLine t with
      | none => .raised
      | some l => parseLine l := by
  simp only [score_wine_parse, lastStrippedLine]
  cases (pySplitlines (pyStrip t)).getLast? <;> simp

/-- A successful parse is bounded by 100. -/
theorem parse_score_le (t : PyStr) (n : Nat) (h : score_wine_parse t = .score n) :
    n ≤ 100 := by
  rw [score_wine_parse_eq] at h
  cases hl : lastStrippedLine t with
  | none => rw [hl] at h; simp at h
  | some l =>
    rw [hl] at h
    simp only [parseLine] at h
    cases hr : reSearchDigits none l with
    | none => rw [hr] at h; simp at h
    | some m =>
      rw [hr] at h
      simp only at h
      by_cases hm : m ≤ 100
      · rw [if_pos hm] at h
        cases h
        exact hm
      · rw [if_neg hm] at h
        simp at h

/-- A successful `score_wine` is bounded by 100. -/
theorem score_wine_le (o : OracleOutcome) (n : Nat) (h : score_wine o = .score n) :
    n ≤ 100 := by
  cases o with
  | raises => simp [score_wine] at h
  | returns t => exact parse_score_le t n h

/-- A digit is a word character. -/
theorem isWordChar_of_digit (c : Char) (h : c.isDigit = true) : isWordChar c = true := by
  simp [isWordChar, Char.isAlphanum, h]

/-- The regex finds nothing on a line with no digits. -/
theorem reSearchDigits_no_digit (prev : Option Char) (l : PyStr)
    (h : ∀ c ∈ l, c.isDigit = false) : reSearchDigits prev l = none := by
  induction l generalizing prev with
  | nil => rfl
  | cons c rest ih =>
    have hc : c.isDigit = false := h c (by simp)
    simp only [reSearchDigits]
    rw [if_neg (by simp [hc])]
    exact ih (some c) (fun x hx => h x (List.mem_cons_of_mem c hx))

/-- The regex finds nothing in an all-digit line when a word character
precedes it. -/
theorem reSearchDigits_all_digit_after_word (p : Char) (l : PyStr)
    (hp : isWordChar p = true) (h : ∀ c ∈ l, c.isDigit = true) :
    reSearchDigits (some p) l = none := by
  induction l generalizing p with
  | nil => rfl
  | cons c rest ih =>
    simp only [reSearchDigits]
    rw [if_neg (by simp [boundaryOk, hp])]
    exact ih c (isWordChar_of_digit c (h c (by simp)))
      (fun x hx => h x (List.mem_cons_of_mem c hx))

/-- On an all-digit line the regex matches the whole line when it has at
most 3 digits, and nothing otherwise. -/
theorem reSearchDigits_all_digit (l : PyStr) (hne : l ≠ [])
    (h : ∀ c ∈ l, c.isDigit = true) :
    reSearchDigits none l = if l.length ≤ 3 then some (digitsToNat l) else none := by
  cases l with
  | nil => exact absurd rfl hne
  | cons c rest =>
    have hc : c.isDigit = true := h c (by simp)
    have hrun : List.takeWhile Char.isDigit (c :: rest) = c :: rest :=
      List.takeWhile_eq_self_iff.mpr h
    by_cases hlen : (c :: rest).length ≤ 3
    · have hafter : afterRunOk (c :: rest) = true := by
        simp [afterRunOk, hrun, List.drop_length]
      have hcond : (c.isDigit && boundaryOk none
          && decide ((List.takeWhile Char.isDigit (c :: rest)).length ≤ 3)
          && afterRunOk (c :: rest)) = true := by
        rw [hrun]
        simp [hc, boundaryOk, hafter]
        simp at hlen
        omega
      simp only [reSearchDigits]
      rw [if_pos hcond, hrun, if_pos hlen]
    · have hcond : ¬((c.isDigit && boundaryOk none
          && decide ((List.takeWhile Char.isDigit (c :: rest)).length ≤ 3)
          && afterRunOk (c :: rest)) = true) := by
        rw [hrun]
        simp
        intro _ _ hlen2
        simp at hlen
        omega
      simp only [reSearchDigits]
      rw [if_neg hcond, if_neg hlen]
      exact reSearchDigits_all_digit_after_word c rest (isWordChar_of_digit c hc)
        (fun x hx => h x (List.mem_cons_of_mem c hx))

end LastBottle

namespace LastBottle

/-- C2 (counterexample): the claim says the parser reports failure both
for a last line "-5" and for empty text; in fact the regex matches the
digit after the minus sign, so "-5" parses as the score 5, and on empty
text the parser raises `IndexError` instead of returning `None`. -/
theorem score_parse_rejects_counterexample :
    score_wine_parse "-5".toList = .score 5 ∧
    score_wine_parse "".toList = .raised := by constructor <;> rfl

/-- C2 (amended): the parser returns the failure value `None` when the
last non-empty line has no digit at all and when it is a single all-digit
number greater than 100; but all-whitespace text raises an exception
instead, and a leading minus sign is not part of the match, so "-5"
yields the score 5 (see the counterexample). -/
theorem score_parse_rejects (t : PyStr) :
    (∀ l, lastStrippedLine t = some l → (∀ c ∈ l, c.isDigit = false) →
      score_wine_parse t = .noScore) ∧
    (∀ l, lastStrippedLine t = some l → l ≠ [] → (∀ c ∈ l, c.isDigit = true) →
      100 < digitsToNat l → score_wine_parse t = .noScore) ∧
    (pyStrip t = [] → score_wine_parse t = .raised) := by
  refine ⟨?_, ?_, ?_⟩
  · intro l hl hnd
    rw [score_wine_parse_eq, hl]
    simp only [parseLine, reSearchDigits_no_digit none l hnd]
  · intro l hl hne hd hgt
    rw [score_wine_parse_eq, hl]
    simp only [parseLine, reSearchDigits_all_digit l hne hd]
    by_cases hlen : l.length ≤ 3
    · rw [if_pos hlen]
      simp only
      rw [if_neg (by omega)]
    · rw [if_neg hlen]
  · intro hempty
    simp only [score_wine_parse, hempty, pySplitlines]
    rfl

/-- C2 witness: a digitless last line parses to `None`. -/
theorem score_parse_rejects_witness : score_wine_parse "abc".toList = .noScore :=
  (score_parse_rejects "abc".toList).1 "abc".toList (by decide) (by decide)

/-- Helper for C7: the parser accepts the decimal representation of every
score from 0 to 100. -/
theorem parseLine_repr : ∀ n < 101, parseLine (Nat.repr n).toList = .score n := by decide

/-- C7: parsing text whose last non-empty line is exactly the decimal
representation of an integer n ≤ 100 returns n, and every successful
parse returns an integer at most 100 (and at least 0, by the return
type). -/
theorem score_parse_wellformed (t : PyStr) (n : Nat) :
    (n ≤ 100 → lastStrippedLine t = some (Nat.repr n).toList →
      score_wine_parse t = .score n) ∧
    (score_wine_parse t = .score n → n ≤ 100) := by
  constructor
  · intro hn hl
    rw [score_wine_parse_eq, hl]
    exact parseLine_repr n (by omega)
  · exact parse_score_le t n

/-- C7 witness: a response ending in the line "87" parses to 87. -/
theorem score_parse_wellformed_witness :
    score_wine_parse "thinking\n87".toList = .score 87 :=
  (score_parse_wellformed "thinking\n87".toList 87).1 (by omega) (by decide)

/-- C4: the persistence layer rejects every out-of-range score write with
a `ValueError`, and the caller's database state is unchanged by the
failed call (no row added or modified). -/
theorem add_user_score_rejects (db : DB) (user_id : PyStr) (wine_id : Nat)
    (score ts : Int) (h : score < 0 ∨ 100 < score) :
    add_user_score db user_id wine_id score ts = .error .valueError ∧
    applyScoreOp db ⟨user_id, wine_id, score, ts⟩ = db := by
  have herr : add_user_score db user_id wine_id score ts = .error .valueError := by
    simp only [add_user_score]
    rw [if_pos h]
  exact ⟨herr, by simp only [applyScoreOp, herr]⟩

/-- C4 witness: a write with score 150 is rejected and changes nothing. -/
theorem add_user_score_rejects_witness :
    add_user_score dbC3 "u".toList 1 150 0 = .error .valueError ∧
    applyScoreOp dbC3 ⟨"u".toList, 1, 150, 0⟩ = dbC3 :=
  add_user_score_rejects dbC3 "u".toList 1 150 0 (by omega)

/-- C5: when the store already holds an offer with the same name inside
the duplicate window, the whole run is a no-op on the store: the database
is returned unchanged (no offer row, no score rows), no user is
processed, no prompt is built, no notification attempted, and the run
still closes the database and flushes the digest. -/
theorem duplicate_offer_noop (db0 : DB) (dirExists : Bool) (users : List UserEvent)
    (wine_name : PyStr) (price : ℚ) (ts cutoff : Int)
    (hdup : is_duplicate_wine db0 wine_name cutoff = true) :
    mainModel (some (wine_name, price)) dirExists users db0 ts cutoff =
      ⟨db0, true, true, [], [], [], false⟩ := by
  simp only [mainModel, hdup]
  rfl

/-- C5 witness: a second "Opus One" run against a store holding an
"Opus One" row inside the window does nothing. -/
theorem duplicate_offer_noop_witness :
    mainModel (some ("Opus One".toList, 50)) true usersC1 dbDup 150 40 =
      ⟨dbDup, true, true, [], [], [], false⟩ :=
  duplicate_offer_noop dbDup true usersC1 "Opus One".toList 50 150 40 (by decide)

end LastBottle

namespace LastBottle

/-- C6: the notification decision is true exactly when the offer name is
in the always-notify list (regardless of score, including score 0), or a
notify threshold is configured as an integer and the score reaches it
(equality included); with no integer threshold and no list membership it
is false. -/
theorem notify_decision_rule (wine_name : PyStr) (score : Nat) (config : UserConfig) :
    shouldNotify wine_name score config = true ↔
      (wine_name ∈ config.always_notify_for ∨
        ∃ t : Int, config.notify_threshold = some (.intVal t) ∧ t ≤ (score : Int)) := by
  unfold shouldNotify
  by_cases hmem : wine_name ∈ config.always_notify_for
  · simp [hmem]
  · rw [if_neg hmem]
    cases hth : config.notify_threshold with
    | none => simp [hmem]
    | some v =>
      cases v with
      | intVal t => simp [hmem, decide_eq_true_iff]
      | nonInt => simp [hmem]

/-- C6 witness: an always-notify match notifies at score 0, with no
threshold configured. -/
theorem notify_decision_rule_witness :
    shouldNotify "Opus One".toList 0 cfgOpus = true :=
  (notify_decision_rule "Opus One".toList 0 cfgOpus).mpr (Or.inl (by decide))

/-- C10: every exception inside `notify_user` is caught — whenever the
fallible body errors, the function still returns (with no send); in
particular a config with no usable email address under either the
top-level key or the contact dict silently produces no notification.
Totality of `notify_user` itself embeds "never raises to its caller". -/
theorem notify_user_never_raises (config : UserConfig) (sendOk : Bool) :
    (∀ e, notifyAttempt config sendOk = .error e → notify_user config sendOk = .noSend) ∧
    (effectiveEmail config = none →
      notifyAttempt config sendOk = .error .valueError ∧
      notify_user config sendOk = .noSend) := by
  constructor
  · intro e he
    simp only [notify_user, he]
  · intro h
    have hatt : notifyAttempt config sendOk = .error .valueError := by
      simp only [notifyAttempt, h]
    exact ⟨hatt, by simp only [notify_user, hatt]⟩

/-- C10 witness: a config with no email configured anywhere returns
normally with no send. -/
theorem notify_user_never_raises_witness : notify_user noCfg true = .noSend :=
  ((notify_user_never_raises noCfg true).2 (by decide)).2

/-- C9 (counterexample): the claim says a present bound is rendered as
its value even when it is 0; in fact Python's falsiness test renders a
0 bound as "Any", indistinguishably from an absent bound. -/
theorem prompt_bound_rendering_counterexample :
    renderBound (some (0 : ℚ)) = .anyB ∧
    generate_wine_scoring_prompt "W".toList cfgZeroMin =
      generate_wine_scoring_prompt "W".toList cfgNoMin := by
  constructor
  · simp [renderBound]
  · rfl

/-- C9 (amended): the prompt builder is a pure function (its model is a
Lean function, so equal inputs give equal text by definition); the
general price bounds are embedded at a fixed position between
`promptPrefix` and `promptSuffix`; and a bound renders as "Any" exactly
when it is absent or equal to 0 — not only when absent. -/
theorem prompt_bound_rendering (wine_name : PyStr) (config : UserConfig) :
    generate_wine_scoring_prompt wine_name config =
      promptPrefix config ++ boundText (renderBound config.price_range.1)
        ++ " - $".toList ++ boundText (renderBound config.price_range.2)
        ++ promptSuffix wine_name config ∧
    (∀ b : Option ℚ, renderBound b = .anyB ↔ (b = none ∨ b = some 0)) := by
  constructor
  · simp only [generate_wine_scoring_prompt, promptPrefix, promptSuffix, List.append_assoc]
  · intro b
    rcases b with _ | v
    · simp [renderBound]
    · by_cases hv : v = 0 <;> simp [renderBound, hv]

/-- C8: being outside the configured price range (strictly below a
present min or strictly above a present max; absent bounds never
exclude, boundary values are inside) is exactly what makes
`in_price_range` false, and for such an offer the per-user pipeline
does nothing at all — no prompt, no score row, no notification — even
when the offer name is in the always-notify list. -/
theorem price_filter_precedes_always_notify (price : ℚ) (config : UserConfig) :
    (in_price_range price config = false ↔
      ((∃ lo, config.price_range.1 = some lo ∧ price < lo) ∨
       (∃ hi, config.price_range.2 = some hi ∧ hi < price))) ∧
    (∀ db wine_id wine_name ts u, u.cfgResult = some config →
      ((∃ lo, config.price_range.1 = some lo ∧ price < lo) ∨
       (∃ hi, config.price_range.2 = some hi ∧ hi < price)) →
      userStep db wine_id wine_name price ts u = ⟨db, false, false, false, false⟩) := by
  have hiff : in_price_range price config = false ↔
      ((∃ lo, config.price_range.1 = some lo ∧ price < lo) ∨
       (∃ hi, config.price_range.2 = some hi ∧ hi < price)) := by
    unfold in_price_range
    rcases h1 : config.price_range.1 with _ | lo <;>
      rcases h2 : config.price_range.2 with _ | hi <;>
        simp [h1, h2, Option.any]
    exact ⟨fun h => if hlt : price < lo then Or.inl hlt else Or.inr (h (not_lt.mp hlt)),
           fun h hle => h.resolve_left (not_lt.mpr hle)⟩
  refine ⟨hiff, ?_⟩
  intro db wine_id wine_name ts u hcfg hout
  have hfalse : in_price_range price config = false := hiff.mpr hout
  simp only [userStep, hcfg, hfalse]
  rfl

/-- C8 witness: the "Opus One" at price 150 scenario — price range
[20, 100], "Opus One" in the always-notify list — produces no prompt, no
score row and no notification for that user. -/
theorem price_filter_precedes_always_notify_witness :
    userStep dbEmpty 1 "Opus One".toList 150 0 uOpus =
      ⟨dbEmpty, false, false, false, false⟩ :=
  (price_filter_precedes_always_notify 150 cfgOpusRange).2 dbEmpty 1
    "Opus One".toList 0 uOpus rfl (Or.inr ⟨100, rfl, by norm_num⟩)

end LastBottle

namespace LastBottle

/-- Shape of a successful `add_user_score`: the conflicting rows are
dropped, the new row appended, and the wines table untouched. -/
theorem add_user_score_ok (db : DB) (user_id : PyStr) (wine_id : Nat)
    (score ts : Int) (db2 : DB) (rid : Nat)
    (h : add_user_score db user_id wine_id score ts = .ok (db2, rid)) :
    ∃ wname,
      db2.scores = db.scores.filter (fun r => !(sameTriple user_id wine_id ts r))
        ++ [⟨db.nextScoreId, user_id, wine_id, wname, score, ts⟩] ∧
      db2.wines = db.wines := by
  unfold add_user_score at h
  by_cases hrange : score < 0 ∨ 100 < score
  · rw [if_pos hrange] at h
    simp at h
  · rw [if_neg hrange] at h
    cases hw : get_wine db wine_id with
    | none => rw [hw] at h; simp at h
    | some w =>
      rw [hw] at h
      simp only [Except.ok.injEq, Prod.mk.injEq] at h
      obtain ⟨h1, -⟩ := h
      exact ⟨w.wine_name, by rw [← h1], by rw [← h1]⟩

/-- Filtering for a key after removing that key gives nothing. -/
theorem filter_of_filter_not {α : Type} (p : α → Bool) (l : List α) :
    (l.filter fun a => !(p a)).filter p = [] := by
  induction l with
  | nil => rfl
  | cons a t ih => by_cases h : p a = true <;> simp [List.filter_cons, h, ih]

/-- Removing a key twice is the same as removing it once. -/
theorem filter_not_idem {α : Type} (p : α → Bool) (l : List α) :
    (l.filter fun a => !(p a)).filter (fun a => !(p a)) = l.filter fun a => !(p a) := by
  induction l with
  | nil => rfl
  | cons a t ih => by_cases h : p a = true <;> simp [List.filter_cons, h, ih]

/-- A successful `add_user_score` preserves triple-uniqueness. -/
theorem UniqueTriples_add (db : DB) (u : PyStr) (w : Nat) (s ts : Int)
    (db2 : DB) (rid : Nat) (hu : UniqueTriples db.scores)
    (h : add_user_score db u w s ts = .ok (db2, rid)) : UniqueTriples db2.scores := by
  obtain ⟨wname, hs, -⟩ := add_user_score_ok db u w s ts db2 rid h
  rw [UniqueTriples, hs, List.pairwise_append]
  refine ⟨List.Pairwise.sublist (List.filter_sublist _) hu, by simp, ?_⟩
  intro a ha b hb
  rw [List.mem_singleton] at hb
  subst hb
  have hpa := (List.mem_filter.mp ha).2
  simp only [Bool.not_eq_eq_eq_not, Bool.not_true, sameTriple,
    decide_eq_false_iff_not] at hpa
  exact hpa

/-- A raising `add_user_score` leaves the database unchanged. -/
theorem UniqueTriples_applyScoreOp (db : DB) (op : ScoreOp)
    (hu : UniqueTriples db.scores) : UniqueTriples (applyScoreOp db op).scores := by
  unfold applyScoreOp
  cases hadd : add_user_score db op.user_id op.wine_id op.score op.timestamp with
  | error e => exact hu
  | ok p =>
    obtain ⟨db2, rid⟩ := p
    exact UniqueTriples_add db op.user_id op.wine_id op.score op.timestamp
      db2 rid hu hadd

/-- Any sequence of `add_user_score` calls preserves triple-uniqueness. -/
theorem UniqueTriples_applyScoreOps (db : DB) (ops : List ScoreOp)
    (hu : UniqueTriples db.scores) : UniqueTriples (applyScoreOps db ops).scores := by
  induction ops generalizing db with
  | nil => exact hu
  | cons op rest ih => exact ih (applyScoreOp db op) (UniqueTriples_applyScoreOp db op hu)

/-- C3: starting from a store with unique `(user_id, wine_id, timestamp)`
triples, any sequence of `add_user_score` calls keeps them unique; and a
further successful write replaces: afterwards exactly one row carries the
written triple — with the newly written score — while the rows of every
other triple are exactly those present before. -/
theorem score_store_unique (db0 : DB) (ops : List ScoreOp)
    (h : UniqueTriples db0.scores) :
    UniqueTriples (applyScoreOps db0 ops).scores ∧
    (∀ u w s ts db2 rid,
      add_user_score (applyScoreOps db0 ops) u w s ts = .ok (db2, rid) →
      UniqueTriples db2.scores ∧
      (db2.scores.filter (sameTriple u w ts)).map
          (fun r => (r.user_id, r.wine_id, r.timestamp, r.score)) = [(u, w, ts, s)] ∧
      db2.scores.filter (fun r => !(sameTriple u w ts r)) =
        (applyScoreOps db0 ops).scores.filter (fun r => !(sameTriple u w ts r))) := by
  have h1 : UniqueTriples (applyScoreOps db0 ops).scores :=
    UniqueTriples_applyScoreOps db0 ops h
  refine ⟨h1, ?_⟩
  intro u w s ts db2 rid hadd
  obtain ⟨wname, hs, -⟩ := add_user_score_ok _ u w s ts db2 rid hadd
  refine ⟨UniqueTriples_add _ u w s ts db2 rid h1 hadd, ?_, ?_⟩
  · rw [hs, List.filter_append, filter_of_filter_not]
    simp [sameTriple]
  · rw [hs, List.filter_append, filter_not_idem]
    simp [sameTriple]

/-- C3 witness: a write into a one-wine store leaves exactly one row for
the written triple, carrying the new score. -/
theorem score_store_unique_witness :
    (dbC3s.scores.filter (sameTriple "u".toList 1 0)).map
        (fun r => (r.user_id, r.wine_id, r.timestamp, r.score)) =
      [("u".toList, 1, 0, 50)] :=
  ((score_store_unique dbC3 [] (by simp [UniqueTriples, dbC3])).2
    "u".toList 1 50 0 dbC3s 1 (by rfl)).2.1

end LastBottle


namespace LastBottle

/-- A user iteration never touches the wines table. -/
theorem userStep_wines (db : DB) (wid : Nat) (wn : PyStr) (price : ℚ) (ts : Int)
    (u : UserEvent) : (userStep db wid wn price ts u).db.wines = db.wines := by
  unfold userStep
  cases hc : u.cfgResult with
  | none => rfl
  | some cfg =>
    cases hin : in_price_range price cfg with
    | false => simp [hin]
    | true =>
      cases ho : score_wine u.oracle with
      | raised => simp [hin, ho]
      | noScore => simp [hin, ho]
      | score n =>
        cases hadd : add_user_score db u.user_id wid (n : Int) ts with
        | error e => simp [hin, ho, hadd]
        | ok p =>
          obtain ⟨db2, rid⟩ := p
          obtain ⟨wname, -, hw⟩ :=
            add_user_score_ok db u.user_id wid (n : Int) ts db2 rid hadd
          simp [hin, ho, hadd, hw]

/-- `get_wine` only reads the wines table. -/
theorem get_wine_congr (db1 db2 : DB) (wid : Nat) (h : db1.wines = db2.wines) :
    get_wine db1 wid = get_wine db2 wid := by
  unfold get_wine
  rw [h]

/-- An in-range write to a present wine succeeds. -/
theorem add_user_score_succeeds (db : DB) (user_id : PyStr) (wine_id : Nat)
    (score ts : Int) (hs : 0 ≤ score ∧ score ≤ 100) (w : WineRow)
    (hw : get_wine db wine_id = some w) :
    ∃ db2 rid, add_user_score db user_id wine_id score ts = .ok (db2, rid) := by
  unfold add_user_score
  rw [if_neg (by omega), hw]
  exact ⟨_, _, rfl⟩

/-- When this user's external scoring call does not raise (and the scored
wine row exists), the loop iteration completes without an uncaught
exception. -/
theorem userStep_uncaught (db : DB) (wid : Nat) (wn : PyStr) (price : ℚ) (ts : Int)
    (u : UserEvent) (hw : (get_wine db wid).isSome = true)
    (ho : score_wine u.oracle ≠ .raised) :
    (userStep db wid wn price ts u).uncaught = false := by
  unfold userStep
  cases hc : u.cfgResult with
  | none => rfl
  | some cfg =>
    cases hin : in_price_range price cfg with
    | false => simp [hin]
    | true =>
      cases hsc : score_wine u.oracle with
      | raised => exact absurd hsc ho
      | noScore => simp [hin, hsc]
      | score n =>
        obtain ⟨w, hw2⟩ := Option.isSome_iff_exists.mp hw
        have hn : n ≤ 100 := score_wine_le u.oracle n hsc
        obtain ⟨db2, rid, hadd⟩ := add_user_score_succeeds db u.user_id wid (n : Int) ts
          (by omega) w hw2
        simp [hin, hsc, hadd]

/-- The per-user loop, when no user's scoring call raises: it reaches the
end (close and digest), aborts nothing, and processes every non-template
user in order. -/
theorem runUsers_ok (wid : Nat) (wn : PyStr) (price : ℚ) (ts : Int)
    (users : List UserEvent) :
    ∀ db : DB, (get_wine db wid).isSome = true →
    (∀ u ∈ users, score_wine u.oracle ≠ .raised) →
    (runUsers wid wn price ts db users).closed = true ∧
    (runUsers wid wn price ts db users).digestSent = true ∧
    (runUsers wid wn price ts db users).aborted = false ∧
    (runUsers wid wn price ts db users).processed = nonTemplate users := by
  induction users with
  | nil => intro db _ _; simp [runUsers, nonTemplate]
  | cons u rest ih =>
    intro db hw hu
    have hrest : ∀ v ∈ rest, score_wine v.oracle ≠ .raised :=
      fun v hv => hu v (List.mem_cons_of_mem u hv)
    by_cases ht : u.user_id = "template".toList
    · have heq : runUsers wid wn price ts db (u :: rest) =
          runUsers wid wn price ts db rest := by
        simp only [runUsers]
        rw [if_pos ht]
      have hnt : nonTemplate (u :: rest) = nonTemplate rest := by
        simp [nonTemplate, List.filter_cons, ht]
      rw [heq, hnt]
      exact ih db hw hrest
    · have hun : (userStep db wid wn price ts u).uncaught = false :=
        userStep_uncaught db wid wn price ts u hw (hu u (List.mem_cons_self u rest))
      have hw2 : (get_wine (userStep db wid wn price ts u).db wid).isSome = true := by
        rw [get_wine_congr _ db wid (userStep_wines db wid wn price ts u)]
        exact hw
      obtain ⟨hc, hd, ha, hp⟩ := ih (userStep db wid wn price ts u).db hw2 hrest
      have heq : runUsers wid wn price ts db (u :: rest) =
          { runUsers wid wn price ts (userStep db wid wn price ts u).db rest with
              processed := u.user_id ::
                (runUsers wid wn price ts
                  (userStep db wid wn price ts u).db rest).processed,
              prompts := (if (userStep db wid wn price ts u).promptBuilt
                  then [u.user_id] else []) ++
                (runUsers wid wn price ts
                  (userStep db wid wn price ts u).db rest).prompts,
              notified := (if (userStep db wid wn price ts u).notifiedUser
                  then [u.user_id] else []) ++
                (runUsers wid wn price ts
                  (userStep db wid wn price ts u).db rest).notified } := by
        simp only [runUsers]
        rw [if_neg ht, if_neg (by simp [hun])]
      rw [heq]
      refine ⟨hc, hd, ha, ?_⟩
      simp only [hp]
      have hnt : nonTemplate (u :: rest) = u.user_id :: nonTemplate rest := by
        simp only [nonTemplate, List.filter_cons]
        rw [if_pos (show (!decide (u.user_id = "template".toList)) = true from by
          rw [decide_eq_false ht]; rfl)]
        rfl
      rw [hnt]

end LastBottle

namespace LastBottle

/-- C1 (amended): per-user isolation holds for the failures `main`
actually catches — config-load exceptions, unparseable (but non-raising)
oracle responses, and notification failures: under the assumption that no
user's scoring call raises (and the offer timestamp is fresh), the run
never aborts, always flushes the error digest, and on the normal path
closes the database and processes every non-template user.  An exception
from the scoring call itself escapes `main` (see the counterexample). -/
theorem run_isolation (scrape : Option (PyStr × ℚ)) (dirExists : Bool)
    (users : List UserEvent) (db0 : DB) (ts cutoff : Int)
    (hu : ∀ u ∈ users, score_wine u.oracle ≠ .raised)
    (hts : ∀ w ∈ db0.wines, w.timestamp ≠ ts) :
    (mainModel scrape dirExists users db0 ts cutoff).aborted = false ∧
    (mainModel scrape dirExists users db0 ts cutoff).digestSent = true ∧
    (∀ wine_name price, scrape = some (wine_name, price) →
      is_duplicate_wine db0 wine_name cutoff = false → dirExists = true →
      (mainModel scrape dirExists users db0 ts cutoff).closed = true ∧
      (mainModel scrape dirExists users db0 ts cutoff).processed = nonTemplate users) := by
  cases scrape with
  | none =>
    refine ⟨rfl, rfl, ?_⟩
    intro wn pr h
    exact absurd h (by simp)
  | some pair =>
    obtain ⟨wn0, pr0⟩ := pair
    by_cases hdup : is_duplicate_wine db0 wn0 cutoff = true
    · have hm : mainModel (some (wn0, pr0)) dirExists users db0 ts cutoff =
          ⟨db0, true, true, [], [], [], false⟩ := by
        simp only [mainModel, hdup]
        rfl
      rw [hm]
      refine ⟨rfl, rfl, ?_⟩
      intro wn pr hsc hdup2 hdir
      obtain ⟨h1, -⟩ : wn0 = wn ∧ pr0 = pr := by
        injection hsc with h
        exact ⟨congrArg Prod.fst h, congrArg Prod.snd h⟩
      rw [← h1] at hdup2
      simp [hdup] at hdup2
    · have hdupf : is_duplicate_wine db0 wn0 cutoff = false := by
        revert hdup
        cases is_duplicate_wine db0 wn0 cutoff <;> simp
      have hany : db0.wines.any (fun w => decide (w.timestamp = ts)) = false := by
        rw [List.any_eq_false]
        intro w hwmem
        simp only [decide_eq_true_eq]
        exact hts w hwmem
      have hadd : add_wine db0 wn0 pr0 ts =
          .ok ({ db0 with wines := db0.wines ++ [⟨db0.nextWineId, ts, wn0, pr0⟩],
                          nextWineId := db0.nextWineId + 1 }, db0.nextWineId) := by
        unfold add_wine
        rw [hany]
        rfl
      have hgw : (get_wine { db0 with
            wines := db0.wines ++ [⟨db0.nextWineId, ts, wn0, pr0⟩],
            nextWineId := db0.nextWineId + 1 } db0.nextWineId).isSome = true := by
        unfold get_wine
        rw [List.find?_isSome]
        exact ⟨⟨db0.nextWineId, ts, wn0, pr0⟩,
          List.mem_append_right _ (List.mem_singleton_self _), by simp⟩
      cases dirExists with
      | false =>
        have hm : mainModel (some (wn0, pr0)) false users db0 ts cutoff =
            ⟨{ db0 with wines := db0.wines ++ [⟨db0.nextWineId, ts, wn0, pr0⟩],
                        nextWineId := db0.nextWineId + 1 }, true, true, [], [], [], false⟩ := by
          simp only [mainModel, hdupf, hadd]
          rfl
        rw [hm]
        refine ⟨rfl, rfl, ?_⟩
        intro wn pr hsc hdup2 hdir
        exact absurd hdir (by simp)
      | true =>
        have hm : mainModel (some (wn0, pr0)) true users db0 ts cutoff =
            runUsers db0.nextWineId wn0 pr0 ts
              { db0 with wines := db0.wines ++ [⟨db0.nextWineId, ts, wn0, pr0⟩],
                         nextWineId := db0.nextWineId + 1 } users := by
          simp only [mainModel, hdupf, hadd]
          rfl
        obtain ⟨hc, hd, ha, hp⟩ := runUsers_ok db0.nextWineId wn0 pr0 ts users _ hgw hu
        rw [hm]
        exact ⟨ha, hd, fun wn pr hsc hdup2 hdir => ⟨hc, hp⟩⟩

/-- C1 (counterexample): with two users whose configs load fine, the
first user's scoring call raising makes the whole run abort: the second
user is never processed and neither the database close nor the
error-digest flush is reached — the exception is not caught at the user
boundary. -/
theorem run_isolation_counterexample :
    (mainModel (some ("Wine".toList, 10)) true usersC1 dbEmpty 0 0).aborted = true ∧
    (mainModel (some ("Wine".toList, 10)) true usersC1 dbEmpty 0 0).digestSent = false ∧
    (mainModel (some ("Wine".toList, 10)) true usersC1 dbEmpty 0 0).closed = false ∧
    (mainModel (some ("Wine".toList, 10)) true usersC1 dbEmpty 0 0).processed = [] := by
  refine ⟨?_, ?_, ?_, ?_⟩ <;> rfl

/-- C1 witness: a run with one scorable user and one user whose config
load raises processes both user slots, aborts nothing, and flushes the
digest — config-load failures are isolated. -/
theorem run_isolation_witness :
    (mainModel (some ("Wine".toList, 10)) true usersC1ok dbEmpty 0 0).digestSent = true ∧
    (mainModel (some ("Wine".toList, 10)) true usersC1ok dbEmpty 0 0).processed =
      nonTemplate usersC1ok := by
  have h := run_isolation (some ("Wine".toList, 10)) true usersC1ok dbEmpty 0 0
    (by decide) (by decide)
  exact ⟨h.2.1, (h.2.2 "Wine".toList 10 rfl (by rfl) rfl).2⟩

end LastBottle
